import Mathlib

/-!
Verification of the DOT cross-chain transfer application (dot-exchange).

The repository is a React front-end with two variants of a `DOTExchange`
component (src/unnamed/part_000 holds both: the first supports routes
Polkadot relay -> Unique and Asset Hub -> Unique; the second supports
Polkadot relay -> Unique and Unique -> Polkadot relay) and a
`TransferHistory` component (src/components/TransferHistory.tsx and
src/unnamed/part_001).

This file shallowly embeds the pure logic of those components:
decimal/big-integer amount arithmetic (the code uses bignumber.js, whose
addition and multiplication are exact), XCM payload construction,
transfer validation (`executeTransfer`), the sign-and-send watch
callback, foreign-asset balance fetching, history chain labelling and
balance display formatting.  JavaScript numbers compared by
`parseFloat(x) < c` are modelled by exact comparison of the decimal
value of `x` against the rational value of the literal `c`; `NaN` is
modelled explicitly (comparisons against it are false).
-/

/-- One decimal digit rendered as a character, as JavaScript
`Number.prototype.toString` / `BigInt.prototype.toString` produce. -/
def digitChar (d : Nat) : Char := Char.ofNat (48 + d)

/-- Fuel-driven most-significant-first base-10 digit list of a natural
number; `natDigitsAux (n+1) n` computes the digits of `n` (the fuel
`n+1` always suffices). Models JavaScript number-to-string conversion
at the digit level. -/
def natDigitsAux : Nat → Nat → List Nat
  | 0, _ => []
  | f + 1, n => if n < 10 then [n] else natDigitsAux f (n / 10) ++ [n % 10]

/-- Base-10 digits of `n`, most significant first; `natDigits 0 = [0]`. -/
def natDigits (n : Nat) : List Nat := natDigitsAux (n + 1) n

/-- Render a digit list as a string. -/
def fromDigits (l : List Nat) : String := String.mk (l.map digitChar)

/-- Decimal string of a natural number (model of JavaScript
`toString()` on a non-negative integer). -/
def natReprS (n : Nat) : String := fromDigits (natDigits n)

/-- Left-pad a digit list with zeros to length `k`; models JavaScript
`String.prototype.padStart(k, "0")` at the digit level. -/
def padZeros (k : Nat) (l : List Nat) : List Nat :=
  List.replicate (k - l.length) 0 ++ l

/-- The exactly-`k`-digit (zero-padded) base-10 representation of
`n % 10^k`, most significant first.  Auxiliary device for reasoning
about `padZeros`/`natDigits`. -/
def digitsFixed : Nat → Nat → List Nat
  | 0, _ => []
  | k + 1, n => digitsFixed k (n / 10) ++ [n % 10]

/-- Value of a most-significant-first digit list. -/
def digitsToNat (l : List Nat) : Nat := l.foldl (fun a d => a * 10 + d) 0

theorem natDigitsAux_eq_of_lt (n : Nat) :
    ∀ f₁ f₂, n < f₁ → n < f₂ → natDigitsAux f₁ n = natDigitsAux f₂ n := by
  induction n using Nat.strong_induction_on with
  | _ n ih =>
    intro f₁ f₂ h₁ h₂
    match f₁, f₂ with
    | g₁ + 1, g₂ + 1 =>
      simp only [natDigitsAux]
      split
      · rfl
      · next h10 =>
        have hd : n / 10 < n := Nat.div_lt_self (by omega) (by omega)
        rw [ih (n / 10) hd g₁ g₂ (by omega) (by omega)]

theorem natDigits_of_lt10 (n : Nat) (h : n < 10) : natDigits n = [n] := by
  simp [natDigits, natDigitsAux, h]

theorem natDigits_of_ge10 (n : Nat) (h : 10 ≤ n) :
    natDigits n = natDigits (n / 10) ++ [n % 10] := by
  have hd : n / 10 < n := Nat.div_lt_self (by omega) (by omega)
  show natDigitsAux (n + 1) n = natDigitsAux (n / 10 + 1) (n / 10) ++ [n % 10]
  conv_lhs => rw [natDigitsAux]
  rw [if_neg (by omega)]
  rw [natDigitsAux_eq_of_lt (n / 10) n (n / 10 + 1) (by omega) (by omega)]

theorem natDigits_length_le (k : Nat) :
    ∀ n, n < 10 ^ k → 1 ≤ k → (natDigits n).length ≤ k := by
  induction k with
  | zero => intro n _ hk; omega
  | succ k ih =>
    intro n hn _
    by_cases h10 : n < 10
    · rw [natDigits_of_lt10 n h10]; simp
    · have hk1 : 1 ≤ k := by
        by_contra hc
        have : k = 0 := by omega
        subst this
        simp at hn
        omega
      rw [natDigits_of_ge10 n (by omega)]
      have : n / 10 < 10 ^ k := by
        rw [Nat.div_lt_iff_lt_mul (by omega)]
        calc n < 10 ^ (k + 1) := hn
        _ = 10 ^ k * 10 := by ring
      have := ih (n / 10) this hk1
      simp only [List.length_append, List.length_singleton]
      omega

theorem digitsFixed_length (k : Nat) : ∀ n, (digitsFixed k n).length = k := by
  induction k with
  | zero => intro n; rfl
  | succ k ih => intro n; simp [digitsFixed, ih]

theorem digitsFixed_zero (k : Nat) : digitsFixed k 0 = List.replicate k 0 := by
  induction k with
  | zero => rfl
  | succ k ih =>
    simp only [digitsFixed, Nat.zero_div, Nat.zero_mod, ih]
    rw [← List.replicate_succ']

theorem padZeros_natDigits (k : Nat) :
    ∀ n, n < 10 ^ k → 1 ≤ k → padZeros k (natDigits n) = digitsFixed k n := by
  induction k with
  | zero => intro n _ hk; omega
  | succ k ih =>
    intro n hn _
    by_cases h10 : n < 10
    · rw [natDigits_of_lt10 n h10]
      have hq : n / 10 = 0 := Nat.div_eq_of_lt h10
      have hm : n % 10 = n := Nat.mod_eq_of_lt h10
      simp only [digitsFixed, hq, hm, digitsFixed_zero]
      simp [padZeros]
    · have hk1 : 1 ≤ k := by
        by_contra hc
        have : k = 0 := by omega
        subst this
        simp at hn
        omega
      have hq : n / 10 < 10 ^ k := by
        rw [Nat.div_lt_iff_lt_mul (by omega)]
        calc n < 10 ^ (k + 1) := hn
        _ = 10 ^ k * 10 := by ring
      have hlen : (natDigits (n / 10)).length ≤ k := natDigits_length_le k (n / 10) hq hk1
      rw [natDigits_of_ge10 n (by omega)]
      simp only [digitsFixed]
      rw [← ih (n / 10) hq hk1]
      simp only [padZeros, List.length_append, List.length_singleton]
      rw [show k + 1 - ((natDigits (n / 10)).length + 1) = k - (natDigits (n / 10)).length by omega]
      simp [List.append_assoc]

theorem digitsFixed_take (t : Nat) :
    ∀ k n, t ≤ k → (digitsFixed k n).take t = digitsFixed t (n / 10 ^ (k - t)) := by
  intro k
  induction k with
  | zero =>
    intro n ht
    have : t = 0 := by omega
    subst this
    rfl
  | succ k ih =>
    intro n ht
    by_cases he : t = k + 1
    · subst he
      rw [List.take_of_length_le (by rw [digitsFixed_length])]
      simp
    · have htk : t ≤ k := by omega
      simp only [digitsFixed]
      rw [List.take_append_eq_append_take]
      rw [digitsFixed_length]
      rw [show t - k = 0 by omega]
      simp only [List.take_zero, List.append_nil]
      rw [ih (n / 10) htk]
      congr 1
      rw [Nat.div_div_eq_div_mul]
      congr 1
      rw [show k + 1 - t = (k - t) + 1 by omega]
      ring

theorem padZeros_take_four (d r : Nat) (hd : 4 ≤ d) (hr : r < 10 ^ d) :
    (padZeros d (natDigits r)).take 4 = padZeros 4 (natDigits (r / 10 ^ (d - 4))) := by
  have hr4 : r / 10 ^ (d - 4) < 10 ^ 4 := by
    rw [Nat.div_lt_iff_lt_mul (Nat.pos_pow_of_pos _ (by omega))]
    calc r < 10 ^ d := hr
    _ = 10 ^ 4 * 10 ^ (d - 4) := by rw [← pow_add]; congr 1; omega
  rw [padZeros_natDigits d r hr (by omega), digitsFixed_take 4 d r hd,
    padZeros_natDigits 4 (r / 10 ^ (d - 4)) hr4 (by omega)]

/-- An exact decimal number `n / 10^s`, or `none` for IEEE/bignumber.js
`NaN`.  Models a bignumber.js `BigNumber`: its addition and
multiplication are exact (configuration `DECIMAL_PLACES` only affects
division-like operations, which the transfer path never uses), and any
arithmetic involving `NaN` yields `NaN`. -/
abbrev BigDec := Option (Nat × Nat)

/-- Exact addition of decimals, aligning the scales
(`BigNumber.prototype.plus`); `NaN` is absorbing. -/
def bdAdd : BigDec → BigDec → BigDec
  | some (n1, s1), some (n2, s2) =>
    if s1 ≤ s2 then some (n1 * 10 ^ (s2 - s1) + n2, s2)
    else some (n1 + n2 * 10 ^ (s1 - s2), s1)
  | _, _ => none

/-- Exact strict comparison (`BigNumber.prototype.lt`); any comparison
against `NaN` is `false`, as in bignumber.js. -/
def bdLt : BigDec → BigDec → Bool
  | some (n1, s1), some (n2, s2) => decide (n1 * 10 ^ s2 < n2 * 10 ^ s1)
  | _, _ => false

/-- Remove factors of ten shared by the numerator and the scale, so the
represented value keeps no trailing fractional zeros (bignumber.js
stores and prints values in this canonical form). -/
def stripScale : Nat → Nat → Nat × Nat
  | n, 0 => (n, 0)
  | n, s + 1 => if n % 10 = 0 then stripScale (n / 10) s else (n, s + 1)

/-- Render the canonical (already stripped) decimal `n / 10^s`. -/
def decRender (n : Nat) (s : Nat) : String :=
  if s = 0 then natReprS n
  else natReprS (n / 10 ^ s) ++ "." ++ fromDigits (padZeros s (natDigits (n % 10 ^ s)))

/-- `BigNumber.prototype.toString()`: the exact decimal representation
of the value, with no trailing fractional zeros and a decimal point only
when the value is not an integer; `NaN` prints as `"NaN"`.  (For the
magnitudes reachable in this application — at most about 10^13 minor
units once the bounds check has passed — bignumber.js never switches to
exponential notation, so plain decimal rendering is the faithful
model.) -/
def bdToString : BigDec → String
  | none => "NaN"
  | some (n, s) =>
    let p := stripScale n s
    decRender p.1 p.2

/-- A user-typed transfer amount. `dec i f` is the well-formed decimal
string with integer part `i` and fractional digit list `f` (the string
`"i.f"`, or just `"i"` when `f` is empty); `nonNumeric` is any string
such as `"abc"` on which both JavaScript `parseFloat` and the
`BigNumber` constructor produce `NaN`. -/
inductive AmountInput
  | dec (i : Nat) (f : List Nat)
  | nonNumeric
deriving DecidableEq, Repr

/-- Numerator of the exact value of the input over `10^f.length`. -/
def decNumer (i : Nat) (f : List Nat) : Nat := i * 10 ^ f.length + digitsToNat f

/-- The `BigNumber` produced by `new BigNumber(transferAmount)`. -/
def toBigDec : AmountInput → BigDec
  | .dec i f => some (decNumer i f, f.length)
  | .nonNumeric => none

/-- `amount.multipliedBy(new BigNumber(10).pow(DOT_DECIMALS))`: exact
multiplication by `10^10` (DOT has 10 decimals). -/
def bdMulPow10 : BigDec → BigDec
  | none => none
  | some (n, s) => if s ≤ 10 then some (n * 10 ^ (10 - s), 0) else some (n, s - 10)

/-- The minor-unit `BigNumber` computed by `executeTransfer`:
`new BigNumber(transferAmount).multipliedBy(new BigNumber(10).pow(10))`. -/
def minorOf (a : AmountInput) : BigDec := bdMulPow10 (toBigDec a)

/-- `parseFloat(transferAmount) < MIN_DOT_TRANSFER` with
`MIN_DOT_TRANSFER = 0.001` (first `DOTExchange` variant).  The decimal
value is compared exactly; for a `NaN` input the comparison is `false`,
exactly as in JavaScript. -/
def belowMinA : AmountInput → Bool
  | .dec i f => decide (decNumer i f * 1000 < 10 ^ f.length)
  | .nonNumeric => false

/-- `parseFloat(transferAmount) < MIN_DOT_TRANSFER` with
`MIN_DOT_TRANSFER = 0.1` (second `DOTExchange` variant). -/
def belowMinB : AmountInput → Bool
  | .dec i f => decide (decNumer i f * 10 < 10 ^ f.length)
  | .nonNumeric => false

/-- `parseFloat(transferAmount) > MAX_DOT_TRANSFER` with
`MAX_DOT_TRANSFER = 1000` (both variants); `false` on `NaN`. -/
def aboveMax : AmountInput → Bool
  | .dec i f => decide (1000 * 10 ^ f.length < decNumer i f)
  | .nonNumeric => false

/-- An XCM v4 junction as this application builds them: a `Parachain`
id or a 32-byte `AccountId32` (the byte list produced by
`decodeAddress` on the recipient's SS58 address, i.e. the public key). -/
inductive Junction
  | parachain (id : Nat)
  | accountId32 (id : List Nat)
deriving DecidableEq, Repr

/-- The interior of an XCM location: `'Here'` or `{ X1: [junction] }`. -/
inductive Interior
  | here
  | x1 (j : Junction)
deriving DecidableEq, Repr

/-- An XCM v4 location: a parent hop count and an interior path. -/
structure Location where
  parents : Nat
  interior : Interior
deriving DecidableEq, Repr

/-- One entry of the `assets` array: the asset's location and the
`Fungible` amount string. -/
structure AssetItem where
  id : Location
  fungible : String
deriving DecidableEq, Repr

/-- The argument bundle handed to the XCM extrinsic
(`transferAssets` / `reserveTransferAssets`). -/
structure Payload where
  destination : Location
  beneficiary : Location
  assets : List AssetItem
  feeAssetItem : Nat
  weightLimit : String
  txCall : String
deriving DecidableEq, Repr

/-- Payload of the Polkadot relay -> Unique branch (`fromPolkadot` in
the first variant, `toUnique` in the second — the construction is
identical): destination parachain 2037 at 0 parents, beneficiary
`AccountId32` at 0 parents, asset `Here` at 0 parents, fee asset 0,
unlimited weight, `xcmPallet.transferAssets`. -/
def buildFromPolkadot (pk : List Nat) (amount : BigDec) : Payload :=
  { destination := ⟨0, .x1 (.parachain 2037)⟩
    beneficiary := ⟨0, .x1 (.accountId32 pk)⟩
    assets := [⟨⟨0, .here⟩, bdToString amount⟩]
    feeAssetItem := 0
    weightLimit := "Unlimited"
    txCall := "transferAssets" }

/-- Payload of the Asset Hub -> Unique branch (`fromAssetHub`):
destination parachain 2037 at 1 parent, beneficiary `AccountId32` at 0
parents, asset `Here` at 1 parent, `polkadotXcm.reserveTransferAssets`. -/
def buildFromAssetHub (pk : List Nat) (amount : BigDec) : Payload :=
  { destination := ⟨1, .x1 (.parachain 2037)⟩
    beneficiary := ⟨0, .x1 (.accountId32 pk)⟩
    assets := [⟨⟨1, .here⟩, bdToString amount⟩]
    feeAssetItem := 0
    weightLimit := "Unlimited"
    txCall := "reserveTransferAssets" }

/-- Payload of the Unique -> Polkadot relay branch (`toPolkadot`):
destination `Here` at 1 parent, beneficiary `AccountId32` at 0 parents,
asset `Here` at 1 parent, `xcmPallet.transferAssets`. -/
def buildToPolkadot (pk : List Nat) (amount : BigDec) : Payload :=
  { destination := ⟨1, .here⟩
    beneficiary := ⟨0, .x1 (.accountId32 pk)⟩
    assets := [⟨⟨1, .here⟩, bdToString amount⟩]
    feeAssetItem := 0
    weightLimit := "Unlimited"
    txCall := "transferAssets" }

/-- A source-chain balance as stored in component state: the formatted
display string (produced by `formatBalance` at fetch time) and the raw
free balance in minor units (`balance.raw.free`). -/
structure BalanceView where
  free : String
  rawFree : Nat
deriving DecidableEq, Repr

/-- The DOT foreign-asset balance on Unique as stored in component
state (`uniqueDotBalance`): display string and raw minor units. -/
structure ForeignAssetBalance where
  balance : String
  raw : String
deriving DecidableEq, Repr

/-- Model of `@polkadot/util`'s `formatBalance(value, { decimals,
withSi: false })` on an integral minor-unit value: the integer part
followed by the first four fractional digits (truncation, zero-padded),
without SI units.  Grouping separators do not arise at the magnitudes
used in the proofs below. -/
def formatBal (n : Nat) (decimals : Nat) : String :=
  natReprS (n / 10 ^ decimals) ++ "." ++
    fromDigits (padZeros 4 (natDigits ((n % 10 ^ decimals) / 10 ^ (decimals - 4))))

/-- The string `formatBalance(requiredAmount.toString(), { decimals:
10, withSi: false })` interpolated into the insufficient-balance
message.  The integral case (scale 0) is the one produced by every
minor-unit amount with at most ten fractional input digits; other
shapes are passed through as their plain decimal rendering. -/
def formatBalBD : BigDec → String
  | some (n, 0) => formatBal n 10
  | some (n, s + 1) => bdToString (some (n, s + 1))
  | none => "NaN"

/-- The insufficient-balance error message of the `fromPolkadot` /
`fromAssetHub` / `toUnique` branches: `"Insufficient balance.
Available: ${balance.free} DOT, Required: ~${formatBalance(...)} DOT
(including fees)"`. -/
def insufficientMsg (freeStr : String) (required : BigDec) : String :=
  "Insufficient balance. Available: " ++ freeStr ++ " DOT, Required: ~" ++
    formatBalBD required ++ " DOT (including fees)"

/-- Errors thrown by `executeTransfer` before submission. -/
inductive TransferError
  | amountOutOfBounds (msg : String)
  | insufficientBalance (msg : String)
  | apiNotConnected (msg : String)
deriving DecidableEq, Repr

/-- Observable milestones of one `executeTransfer` run, in execution
order: the min/max bounds validation, acquiring the wallet injector
(`web3FromAddress`, the signer handle), the source-balance check, the
construction of the XCM payload, and `tx.signAndSend` (signing and
submission). -/
inductive Step
  | boundsCheck
  | acquireInjector
  | balanceCheck
  | buildPayload
  | signAndSend
deriving DecidableEq, Repr

/-- Result of an `executeTransfer` run: the thrown error or the payload
handed to `signAndSend`, plus the ordered list of milestones reached. -/
structure RunResult where
  result : Except TransferError Payload
  trace : List Step
deriving Repr

/-- Transfer directions of the first `DOTExchange` variant. -/
inductive DirA
  | fromPolkadot
  | fromAssetHub
deriving DecidableEq, Repr

/-- State visible to `executeTransfer` in the first `DOTExchange`
variant: direction, typed amount, the recipient public key
(`decodeAddress(selectedAccount.address)`), the cached source-chain
balances, and whether each API connection is established. -/
structure CtxA where
  direction : DirA
  transferAmount : AmountInput
  pubkey : List Nat
  polkadotBalance : Option BalanceView
  assetHubBalance : Option BalanceView
  polkadotConnected : Bool
  assetHubConnected : Bool

/-- Fee estimate of the first variant:
`new BigNumber(10).pow(DOT_DECIMALS - 2)`, i.e. 0.01 DOT. -/
def feeEstimateA : Nat := 10 ^ 8

/-- Fee estimate of the second variant's `toUnique` branch:
`new BigNumber(10).pow(DOT_DECIMALS - 1)`, i.e. 0.1 DOT. -/
def feeEstimateB : Nat := 10 ^ 9

/-- `executeTransfer` of the first `DOTExchange` variant
(src/unnamed/part_000 lines 387-654): validate the amount against the
[0.001, 1000] DOT bounds, compute the exact minor-unit amount, acquire
the injector, then per direction check `free < amount + fee` on the
cached raw balance (skipped when no balance is cached), require the
API connection, build the XCM payload and sign-and-send it. -/
def executeTransferA (ctx : CtxA) : RunResult :=
  if belowMinA ctx.transferAmount then
    ⟨.error (.amountOutOfBounds "Minimum transfer amount is 0.001 DOT"), [.boundsCheck]⟩
  else if aboveMax ctx.transferAmount then
    ⟨.error (.amountOutOfBounds "Maximum transfer amount is 1000 DOT"), [.boundsCheck]⟩
  else
    let amount := minorOf ctx.transferAmount
    match ctx.direction with
    | .fromPolkadot =>
      match ctx.polkadotBalance with
      | some bal =>
        let required := bdAdd amount (some (feeEstimateA, 0))
        if bdLt (some (bal.rawFree, 0)) required then
          ⟨.error (.insufficientBalance (insufficientMsg bal.free required)),
            [.boundsCheck, .acquireInjector, .balanceCheck]⟩
        else if ctx.polkadotConnected then
          ⟨.ok (buildFromPolkadot ctx.pubkey amount),
            [.boundsCheck, .acquireInjector, .balanceCheck, .buildPayload, .signAndSend]⟩
        else
          ⟨.error (.apiNotConnected "Polkadot API not connected"),
            [.boundsCheck, .acquireInjector, .balanceCheck]⟩
      | none =>
        if ctx.polkadotConnected then
          ⟨.ok (buildFromPolkadot ctx.pubkey amount),
            [.boundsCheck, .acquireInjector, .buildPayload, .signAndSend]⟩
        else
          ⟨.error (.apiNotConnected "Polkadot API not connected"),
            [.boundsCheck, .acquireInjector]⟩
    | .fromAssetHub =>
      match ctx.assetHubBalance with
      | some bal =>
        let required := bdAdd amount (some (feeEstimateA, 0))
        if bdLt (some (bal.rawFree, 0)) required then
          ⟨.error (.insufficientBalance (insufficientMsg bal.free required)),
            [.boundsCheck, .acquireInjector, .balanceCheck]⟩
        else if ctx.assetHubConnected then
          ⟨.ok (buildFromAssetHub ctx.pubkey amount),
            [.boundsCheck, .acquireInjector, .balanceCheck, .buildPayload, .signAndSend]⟩
        else
          ⟨.error (.apiNotConnected "Asset Hub API not connected"),
            [.boundsCheck, .acquireInjector, .balanceCheck]⟩
      | none =>
        if ctx.assetHubConnected then
          ⟨.ok (buildFromAssetHub ctx.pubkey amount),
            [.boundsCheck, .acquireInjector, .buildPayload, .signAndSend]⟩
        else
          ⟨.error (.apiNotConnected "Asset Hub API not connected"),
            [.boundsCheck, .acquireInjector]⟩

/-- Transfer directions of the second `DOTExchange` variant. -/
inductive DirB
  | toUnique
  | toPolkadot
deriving DecidableEq, Repr

/-- State visible to `executeTransfer` in the second `DOTExchange`
variant. `uniqueDotBalance` is the cached DOT foreign-asset balance on
Unique (display string plus raw minor units). -/
structure DotOnUniqueView where
  balance : String
  rawFree : Nat
deriving DecidableEq, Repr

/-- State visible to `executeTransfer` in the second `DOTExchange`
variant. -/
structure CtxB where
  direction : DirB
  transferAmount : AmountInput
  pubkey : List Nat
  polkadotBalance : Option BalanceView
  uniqueDotBalance : Option DotOnUniqueView
  polkadotConnected : Bool
  uniqueConnected : Bool

/-- `executeTransfer` of the second `DOTExchange` variant
(src/unnamed/part_000 lines 1288-1541): bounds [0.1, 1000] DOT; the
`toUnique` branch checks `free < amount + 0.1 DOT` on the relay
balance; the `toPolkadot` branch first requires the Unique API, then
rejects when no DOT foreign-asset balance is cached or `raw < amount`
(no fee added there). -/
def executeTransferB (ctx : CtxB) : RunResult :=
  if belowMinB ctx.transferAmount then
    ⟨.error (.amountOutOfBounds "Minimum transfer amount is 0.1 DOT"), [.boundsCheck]⟩
  else if aboveMax ctx.transferAmount then
    ⟨.error (.amountOutOfBounds "Maximum transfer amount is 1000 DOT"), [.boundsCheck]⟩
  else
    let amount := minorOf ctx.transferAmount
    match ctx.direction with
    | .toUnique =>
      match ctx.polkadotBalance with
      | some bal =>
        let required := bdAdd amount (some (feeEstimateB, 0))
        if bdLt (some (bal.rawFree, 0)) required then
          ⟨.error (.insufficientBalance (insufficientMsg bal.free required)),
            [.boundsCheck, .acquireInjector, .balanceCheck]⟩
        else if ctx.polkadotConnected then
          ⟨.ok (buildFromPolkadot ctx.pubkey amount),
            [.boundsCheck, .acquireInjector, .balanceCheck, .buildPayload, .signAndSend]⟩
        else
          ⟨.error (.apiNotConnected "Polkadot API not connected"),
            [.boundsCheck, .acquireInjector, .balanceCheck]⟩
      | none =>
        if ctx.polkadotConnected then
          ⟨.ok (buildFromPolkadot ctx.pubkey amount),
            [.boundsCheck, .acquireInjector, .buildPayload, .signAndSend]⟩
        else
          ⟨.error (.apiNotConnected "Polkadot API not connected"),
            [.boundsCheck, .acquireInjector]⟩
    | .toPolkadot =>
      if ctx.uniqueConnected then
        match ctx.uniqueDotBalance with
        | some bal =>
          if bdLt (some (bal.rawFree, 0)) amount then
            ⟨.error (.insufficientBalance
                ("Insufficient DOT balance on Unique Network. Available: " ++
                  bal.balance ++ " DOT")),
              [.boundsCheck, .acquireInjector, .balanceCheck]⟩
          else
            ⟨.ok (buildToPolkadot ctx.pubkey amount),
              [.boundsCheck, .acquireInjector, .balanceCheck, .buildPayload, .signAndSend]⟩
        | none =>
          ⟨.error (.insufficientBalance
              "Insufficient DOT balance on Unique Network. Available: 0 DOT"),
            [.boundsCheck, .acquireInjector, .balanceCheck]⟩
      else
        ⟨.error (.apiNotConnected "Unique API not connected"),
          [.boundsCheck, .acquireInjector]⟩

/-- One chain event as inspected by the watch callback: its pallet
(`event.section`, field `sec` here) and method. -/
structure ChainEvent where
  sec : String
  method : String
deriving DecidableEq, Repr

/-- One emission of the `signAndSend` watch stream, as read by the
callback: the status flags and the accompanying events and hash. -/
structure WatchResult where
  isInBlock : Bool
  isError : Bool
  events : List ChainEvent
  txHash : String
deriving DecidableEq, Repr

/-- Kinds of `TransactionStatus.status`. -/
inductive TxStatusKind
  | idle
  | pending
  | success
  | error
deriving DecidableEq, Repr

/-- The component's `TransactionStatus` record. -/
structure TransactionStatus where
  status : TxStatusKind
  message : Option String
  hash : Option String
deriving DecidableEq, Repr

/-- Effects of one invocation of the watch callback: the status it
sets (if any), how many times it calls the `unsub` handle returned by
`signAndSend`, and whether it schedules the delayed balance refresh. -/
structure CallbackOutcome where
  status : Option TransactionStatus
  unsubCalls : Nat
  refreshScheduled : Bool
deriving DecidableEq, Repr

/-- The result callback passed to `tx.signAndSend` in the
`fromPolkadot` branch (src/unnamed/part_000 lines 486-528).  On an
`isInBlock` emission it scans the events for a
`system.ExtrinsicSuccess`, sets a success or error status accordingly,
releases the watch subscription exactly once, and schedules the delayed
balance refresh and reset; on an `isError` emission it sets an error
status and releases the subscription; any other emission is only
logged. -/
def watchCallback (amountStr : String) (r : WatchResult) : CallbackOutcome :=
  if r.isInBlock then
    let success := r.events.any fun e => e.sec == "system" && e.method == "ExtrinsicSuccess"
    if success then
      { status := some ⟨.success,
          some ("Successfully transferred " ++ amountStr ++ " DOT to Unique Network"),
          some r.txHash⟩
        unsubCalls := 1
        refreshScheduled := true }
    else
      { status := some ⟨.error,
          some "Transaction failed - check blockchain explorer for details", none⟩
        unsubCalls := 1
        refreshScheduled := true }
  else if r.isError then
    { status := some ⟨.error, some "Transaction failed", none⟩
      unsubCalls := 1
      refreshScheduled := false }
  else
    { status := none, unsubCalls := 0, refreshScheduled := false }

/-- `getDotBalanceOnUnique` of the first variant (src/unnamed/part_000
lines 115-161), over the outcome of the Unique SDK call
`fungible.getAccountBalance({ collectionId: 437, address })`: a thrown
error (`.error`) or a result whose `balance` field may be missing/falsy
(`none`) or hold the raw minor-unit amount.  A positive balance is
rendered by exact division `dividedBy(10^10).toFixed()` (the value has
at most ten fractional digits, so the division is exact and `toFixed()`
is the plain decimal string); everything else degrades to
`{balance: "0", raw: "0"}`. -/
def getDotBalanceOnUniqueSdk : Except Unit (Option Nat) → ForeignAssetBalance
  | .error _ => ⟨"0", "0"⟩
  | .ok none => ⟨"0", "0"⟩
  | .ok (some raw) =>
    if raw = 0 then ⟨"0", "0"⟩
    else ⟨bdToString (some (raw, 10)), natReprS raw⟩

/-- `getDotBalanceOnUnique` of the second variant (src/unnamed/part_000
lines 1096-1125), over the outcome of the on-chain query
`uniqueApi.query.common.balance(437, { Substrate: address })`: a thrown
error, an empty/zero storage value (`none` or `0`), or the raw amount,
which is displayed through `formatBalance`.  Failures degrade to
`{balance: "0", raw: "0"}`. -/
def getDotBalanceOnUniqueChain : Except Unit (Option Nat) → ForeignAssetBalance
  | .error _ => ⟨"0", "0"⟩
  | .ok none => ⟨"0", "0"⟩
  | .ok (some raw) =>
    if raw = 0 then ⟨"0", "0"⟩
    else ⟨formatBal raw 10, natReprS raw⟩

/-- `getDestinationChain` of `TransferHistory`
(src/components/TransferHistory.tsx lines 53-64): the static lookup
table mapping a destination para id to a canonical chain name, with the
generic `"Parachain <id>"` label for unknown ids. -/
def getDestinationChain (destParaId : Nat) : String :=
  if destParaId = 0 then "Polkadot Relay"
  else if destParaId = 1000 then "Asset Hub"
  else if destParaId = 2037 then "Unique Network"
  else "Parachain " ++ natReprS destParaId

/-- `formatAmount` of `TransferHistory`
(src/components/TransferHistory.tsx lines 67-74): exact `BigInt`
division by `10^decimals` for the integer part; the fractional part is
the remainder's digit string zero-padded (`padStart`) to `decimals`
digits and cut (`slice(0, 4)`) to its first four digits. -/
def formatAmount (amount : Nat) (decimals : Nat) : String :=
  natReprS (amount / 10 ^ decimals) ++ "." ++
    fromDigits ((padZeros decimals (natDigits (amount % 10 ^ decimals))).take 4)

/-- The fractional digit list of the display rule as the spec words it. -/
def truncFrac (amount : Nat) (decimals : Nat) : List Nat :=
  padZeros 4 (natDigits ((amount % 10 ^ decimals) / 10 ^ (decimals - 4)))

/-- Modelled from the spec: the display-boundary rendering rule
"`integerPart.fractionalPart` truncated (not rounded) to 4 fractional
digits, computed via exact integer division".  Used as the comparison
point for the source's two formatting paths. -/
def truncDisplay (amount : Nat) (decimals : Nat) : String :=
  natReprS (amount / 10 ^ decimals) ++ "." ++ fromDigits (truncFrac amount decimals)

/-- The Asset Hub free-balance display of the first variant's
`fetchBalances` (src/unnamed/part_000 lines 297-311):
`new BigNumber(raw).dividedBy(10^10).toFixed(4)`.  The division is
exact (ten decimals); bignumber.js `toFixed(4)` then rounds the value
to four fractional digits with the default `ROUND_HALF_UP` mode:
the fifth-and-beyond fractional part `raw % 10^6` rounds the kept part
up when it is at least half of `10^6`. -/
def assetHubFormatFree (raw : Nat) : String :=
  let t := raw / 10 ^ 6 + (if 10 ^ 6 ≤ raw % 10 ^ 6 * 2 then 1 else 0)
  natReprS (t / 10 ^ 4) ++ "." ++ fromDigits (padZeros 4 (natDigits (t % 10 ^ 4)))

deriving instance DecidableEq for Except

theorem bdToString_minor_int (i : Nat) (f : List Nat) (hf : f.length ≤ 10) :
    bdToString (minorOf (.dec i f)) = natReprS (decNumer i f * 10 ^ (10 - f.length)) := by
  simp [minorOf, toBigDec, bdMulPow10, if_pos hf, bdToString, stripScale, decRender]

theorem runA_ok_fungible (ctx : CtxA) (p : Payload)
    (h : (executeTransferA ctx).result = .ok p) :
    p.assets.map AssetItem.fungible = [bdToString (minorOf ctx.transferAmount)] := by
  rcases ctx with ⟨dir, am, pk, pb, ab, pc, ac⟩
  simp only [executeTransferA] at h
  cases dir <;> cases pb <;> cases ab <;>
    repeat' split at h
  all_goals simp_all [buildFromPolkadot, buildFromAssetHub]
  all_goals (subst h; rfl)

/-- C1: every supported route addresses the transfer payload by
hop-count relative to the sending chain: relay -> child (Parachain
2037) uses a 0-parent destination with an `X1 Parachain` interior and a
0-parent `Here` asset; child -> sibling child (Asset Hub -> Unique)
uses a 1-parent destination with an `X1 Parachain` interior and a
1-parent `Here` asset; child -> relay (Unique -> Polkadot) uses a
1-parent destination with `Here` interior and a 1-parent `Here` asset;
and in every case the beneficiary is a 0-parent `X1 AccountId32` built
from the recipient's 32-byte public key. -/
theorem c1_route_descriptors (pk : List Nat) (amount : BigDec) (h : pk.length = 32) :
    (buildFromPolkadot pk amount).destination = ⟨0, .x1 (.parachain 2037)⟩ ∧
    (buildFromPolkadot pk amount).assets.map AssetItem.id = [⟨0, .here⟩] ∧
    (buildFromAssetHub pk amount).destination = ⟨1, .x1 (.parachain 2037)⟩ ∧
    (buildFromAssetHub pk amount).assets.map AssetItem.id = [⟨1, .here⟩] ∧
    (buildToPolkadot pk amount).destination = ⟨1, .here⟩ ∧
    (buildToPolkadot pk amount).assets.map AssetItem.id = [⟨1, .here⟩] ∧
    (buildFromPolkadot pk amount).beneficiary = ⟨0, .x1 (.accountId32 pk)⟩ ∧
    (buildFromAssetHub pk amount).beneficiary = ⟨0, .x1 (.accountId32 pk)⟩ ∧
    (buildToPolkadot pk amount).beneficiary = ⟨0, .x1 (.accountId32 pk)⟩ ∧
    pk.length = 32 :=
  ⟨rfl, rfl, rfl, rfl, rfl, rfl, rfl, rfl, rfl, h⟩

/-- Witness for C1 at a concrete 32-byte key and a 5-DOT amount. -/
theorem c1_route_descriptors_witness :
    (buildFromPolkadot (List.replicate 32 7) (some (50000000000, 0))).destination
      = ⟨0, .x1 (.parachain 2037)⟩ :=
  (c1_route_descriptors (List.replicate 32 7) (some (50000000000, 0)) (by decide)).1

/-- C2 counterexample: the accepted amount string `"1.00000000000005"`
(14 fractional digits; `parseFloat` value within [0.001, 1000]) runs to
submission, and the `Fungible` field of the built payload is the
decimal string `"10000000000.0005"`, not an integer string. -/
theorem c2_counterexample :
    belowMinA (.dec 1 [0, 0, 0, 0, 0, 0, 0, 0, 0, 0, 0, 0, 0, 5]) = false ∧
    aboveMax (.dec 1 [0, 0, 0, 0, 0, 0, 0, 0, 0, 0, 0, 0, 0, 5]) = false ∧
    (executeTransferA ⟨.fromPolkadot, .dec 1 [0, 0, 0, 0, 0, 0, 0, 0, 0, 0, 0, 0, 0, 5],
        List.replicate 32 7, some ⟨"10000.0000", 100000000000000⟩, none, true, true⟩).result
      = .ok (buildFromPolkadot (List.replicate 32 7) (some (100000000000005, 4))) ∧
    (buildFromPolkadot (List.replicate 32 7) (some (100000000000005, 4))).assets.map
        AssetItem.fungible = ["10000000000.0005"] ∧
    "10000000000.0005".data.contains '.' = true := by
  decide

/-- C2 (amended): for every transfer amount accepted by validation with
at most ten fractional digits, the `Fungible` field of the built
payload is the exact minor-unit integer string (decimal value times
`10^10`, serialized without a decimal point); inputs with more than ten
fractional digits can instead produce a decimal string. -/
theorem c2_minor_unit_integer_string (ctx : CtxA) (p : Payload) (i : Nat) (f : List Nat)
    (ha : ctx.transferAmount = .dec i f) (hf : f.length ≤ 10)
    (h : (executeTransferA ctx).result = .ok p) :
    p.assets.map AssetItem.fungible = [natReprS (decNumer i f * 10 ^ (10 - f.length))] := by
  rw [runA_ok_fungible ctx p h, ha, bdToString_minor_int i f hf]

/-- Witness for C2 at the amount string `"1.5"`. -/
theorem c2_minor_unit_integer_string_witness :
    (executeTransferA ⟨.fromPolkadot, .dec 1 [5], List.replicate 32 7,
        some ⟨"100.0000", 1000000000000⟩, none, true, true⟩).result
      = .ok (buildFromPolkadot (List.replicate 32 7) (some (15000000000, 0))) ∧
    (buildFromPolkadot (List.replicate 32 7) (some (15000000000, 0))).assets.map
        AssetItem.fungible = [natReprS (decNumer 1 [5] * 10 ^ (10 - [5].length))] :=
  ⟨by decide,
    c2_minor_unit_integer_string
      ⟨.fromPolkadot, .dec 1 [5], List.replicate 32 7,
        some ⟨"100.0000", 1000000000000⟩, none, true, true⟩
      (buildFromPolkadot (List.replicate 32 7) (some (15000000000, 0)))
      1 [5] rfl (by decide) (by decide)⟩

/-- C3: any requested amount strictly below the minimum or strictly
above the maximum makes `executeTransfer` throw an amount-out-of-bounds
error with a trace containing only the bounds check: no balance check,
no injector/signer acquisition, no payload construction and no
submission happen. -/
theorem c3_out_of_bounds_rejects (ctx : CtxA)
    (h : belowMinA ctx.transferAmount = true ∨ aboveMax ctx.transferAmount = true) :
    (∃ s, (executeTransferA ctx).result = .error (.amountOutOfBounds s)) ∧
    (executeTransferA ctx).trace = [.boundsCheck] ∧
    Step.balanceCheck ∉ (executeTransferA ctx).trace ∧
    Step.acquireInjector ∉ (executeTransferA ctx).trace ∧
    Step.buildPayload ∉ (executeTransferA ctx).trace ∧
    Step.signAndSend ∉ (executeTransferA ctx).trace := by
  have key : (executeTransferA ctx).trace = [.boundsCheck] ∧
      ∃ s, (executeTransferA ctx).result = .error (.amountOutOfBounds s) := by
    unfold executeTransferA
    rcases h with h | h
    · rw [if_pos h]
      exact ⟨rfl, _, rfl⟩
    · by_cases hb : belowMinA ctx.transferAmount = true
      · rw [if_pos hb]
        exact ⟨rfl, _, rfl⟩
      · rw [if_neg hb, if_pos h]
        exact ⟨rfl, _, rfl⟩
  refine ⟨key.2, key.1, ?_, ?_, ?_, ?_⟩ <;> rw [key.1] <;> decide

/-- Witness for C3 at the below-minimum amount string `"0.0001"`. -/
theorem c3_out_of_bounds_rejects_witness :
    (∃ s, (executeTransferA ⟨.fromPolkadot, .dec 0 [0, 0, 0, 1], List.replicate 32 7,
        some ⟨"100.0000", 1000000000000⟩, none, true, true⟩).result
      = .error (.amountOutOfBounds s)) ∧
    (executeTransferA ⟨.fromPolkadot, .dec 0 [0, 0, 0, 1], List.replicate 32 7,
        some ⟨"100.0000", 1000000000000⟩, none, true, true⟩).trace = [.boundsCheck] ∧
    Step.balanceCheck ∉ (executeTransferA ⟨.fromPolkadot, .dec 0 [0, 0, 0, 1],
        List.replicate 32 7, some ⟨"100.0000", 1000000000000⟩, none, true, true⟩).trace ∧
    Step.acquireInjector ∉ (executeTransferA ⟨.fromPolkadot, .dec 0 [0, 0, 0, 1],
        List.replicate 32 7, some ⟨"100.0000", 1000000000000⟩, none, true, true⟩).trace ∧
    Step.buildPayload ∉ (executeTransferA ⟨.fromPolkadot, .dec 0 [0, 0, 0, 1],
        List.replicate 32 7, some ⟨"100.0000", 1000000000000⟩, none, true, true⟩).trace ∧
    Step.signAndSend ∉ (executeTransferA ⟨.fromPolkadot, .dec 0 [0, 0, 0, 1],
        List.replicate 32 7, some ⟨"100.0000", 1000000000000⟩, none, true, true⟩).trace :=
  c3_out_of_bounds_rejects _ (Or.inl (by decide))

/-- C4: when the source-chain free balance equals exactly the requested
minor-unit amount plus the fixed fee estimate, the insufficient-balance
validation passes (the run builds and submits the payload) — the
boundary is inclusive; one minor unit below that sum, the run fails
with an insufficient-balance error.  Stated for the first variant's
`fromPolkadot` branch (fee 0.01 DOT) and the second variant's
`toUnique` branch (fee 0.1 DOT). -/
theorem c4_balance_boundary_inclusive (am : AmountInput) (m : Nat) (fs fs2 : String)
    (pk : List Nat) (hm : minorOf am = some (m, 0))
    (hbA : belowMinA am = false) (hx : aboveMax am = false) (hbB : belowMinB am = false) :
    (executeTransferA ⟨.fromPolkadot, am, pk, some ⟨fs, m + feeEstimateA⟩,
        none, true, true⟩).result = .ok (buildFromPolkadot pk (some (m, 0))) ∧
    (∃ s, (executeTransferA ⟨.fromPolkadot, am, pk, some ⟨fs, m + feeEstimateA - 1⟩,
        none, true, true⟩).result = .error (.insufficientBalance s)) ∧
    (executeTransferB ⟨.toUnique, am, pk, some ⟨fs2, m + feeEstimateB⟩,
        none, true, true⟩).result = .ok (buildFromPolkadot pk (some (m, 0))) ∧
    (∃ s, (executeTransferB ⟨.toUnique, am, pk, some ⟨fs2, m + feeEstimateB - 1⟩,
        none, true, true⟩).result = .error (.insufficientBalance s)) := by
  refine ⟨?_, ?_, ?_, ?_⟩ <;>
    simp only [executeTransferA, executeTransferB, hbA, hx, hbB, hm, feeEstimateA,
      feeEstimateB, bdAdd, bdLt, Bool.false_eq_true, if_false, Nat.le_refl, if_true,
      pow_zero, mul_one, Nat.sub_zero, decide_eq_true_eq]
  · rw [if_neg (by omega)]
  · rw [if_pos (by omega)]
    exact ⟨_, rfl⟩
  · rw [if_neg (by omega)]
  · rw [if_pos (by omega)]
    exact ⟨_, rfl⟩

/-- Witness for C4 at the amount string `"1"` (10^10 minor units). -/
theorem c4_balance_boundary_inclusive_witness :
    (executeTransferA ⟨.fromPolkadot, .dec 1 [], List.replicate 32 7,
        some ⟨"1.0100", 10000000000 + feeEstimateA⟩, none, true, true⟩).result
      = .ok (buildFromPolkadot (List.replicate 32 7) (some (10000000000, 0))) ∧
    (∃ s, (executeTransferA ⟨.fromPolkadot, .dec 1 [], List.replicate 32 7,
        some ⟨"1.0100", 10000000000 + feeEstimateA - 1⟩, none, true, true⟩).result
      = .error (.insufficientBalance s)) ∧
    (executeTransferB ⟨.toUnique, .dec 1 [], List.replicate 32 7,
        some ⟨"1.1000", 10000000000 + feeEstimateB⟩, none, true, true⟩).result
      = .ok (buildFromPolkadot (List.replicate 32 7) (some (10000000000, 0))) ∧
    (∃ s, (executeTransferB ⟨.toUnique, .dec 1 [], List.replicate 32 7,
        some ⟨"1.1000", 10000000000 + feeEstimateB - 1⟩, none, true, true⟩).result
      = .error (.insufficientBalance s)) :=
  c4_balance_boundary_inclusive (.dec 1 []) 10000000000 "1.0100" "1.1000"
    (List.replicate 32 7) (by decide) (by decide) (by decide) (by decide)

set_option maxRecDepth 4000 in
/-- C5 counterexample: transferring `"1"` DOT with a cached relay
balance of 0.5 DOT (raw 5000000000) is rejected for insufficient
balance, but the surfaced message contains neither the shortfall —
required minus available is 5100000000 minor units, i.e. 0.51 DOT, and
none of its renderings `"0.51"`, `"0.5100"`, `"5100000000"` occur —
nor the fee estimate used (0.01 DOT: none of `"0.01"`, `"0.0100"`,
`"100000000"` occur).  It only shows the available and total required
amounts. -/
theorem c5_counterexample :
    (executeTransferA ⟨.fromPolkadot, .dec 1 [], List.replicate 32 7,
        some ⟨"0.5000", 5000000000⟩, none, true, true⟩).result
      = .error (.insufficientBalance
          "Insufficient balance. Available: 0.5000 DOT, Required: ~1.0100 DOT (including fees)") ∧
    ¬ ("0.51".data <:+:
      "Insufficient balance. Available: 0.5000 DOT, Required: ~1.0100 DOT (including fees)".data) ∧
    ¬ ("0.5100".data <:+:
      "Insufficient balance. Available: 0.5000 DOT, Required: ~1.0100 DOT (including fees)".data) ∧
    ¬ ("5100000000".data <:+:
      "Insufficient balance. Available: 0.5000 DOT, Required: ~1.0100 DOT (including fees)".data) ∧
    ¬ ("0.01".data <:+:
      "Insufficient balance. Available: 0.5000 DOT, Required: ~1.0100 DOT (including fees)".data) ∧
    ¬ ("0.0100".data <:+:
      "Insufficient balance. Available: 0.5000 DOT, Required: ~1.0100 DOT (including fees)".data) ∧
    ¬ ("100000000".data <:+:
      "Insufficient balance. Available: 0.5000 DOT, Required: ~1.0100 DOT (including fees)".data) := by
  decide

/-- C5 (amended): the insufficient-balance message surfaced to the
caller contains the cached available-balance display string and the
formatted total required amount (requested amount plus fee, labelled
"including fees"); the shortfall and the fee estimate are not stated
separately. -/
theorem c5_message_contents (freeStr : String) (required : BigDec) :
    freeStr.data <:+: (insufficientMsg freeStr required).data ∧
    (formatBalBD required).data <:+: (insufficientMsg freeStr required).data := by
  constructor
  · refine ⟨"Insufficient balance. Available: ".data,
      (" DOT, Required: ~" ++ formatBalBD required ++ " DOT (including fees)").data, ?_⟩
    simp [insufficientMsg, String.data_append, List.append_assoc]
  · refine ⟨("Insufficient balance. Available: " ++ freeStr ++ " DOT, Required: ~").data,
      " DOT (including fees)".data, ?_⟩
    simp [insufficientMsg, String.data_append, List.append_assoc]

/-- C6: when the watch stream emits an in-block result whose events
contain no `system.ExtrinsicSuccess`, the callback sets the error
(failure) terminal status — not success — and releases the watch
subscription (calls `unsub`) exactly once. -/
theorem c6_inblock_without_success (amountStr : String) (r : WatchResult)
    (h1 : r.isInBlock = true)
    (h2 : r.events.any (fun e => e.sec == "system" && e.method == "ExtrinsicSuccess")
      = false) :
    (watchCallback amountStr r).status =
      some ⟨.error, some "Transaction failed - check blockchain explorer for details", none⟩ ∧
    (watchCallback amountStr r).unsubCalls = 1 := by
  unfold watchCallback
  rw [if_pos h1]
  simp [h2]

/-- Witness for C6 at an in-block result carrying only an
`xcmPallet.Attempted` event. -/
theorem c6_inblock_without_success_witness :
    (watchCallback "1" ⟨true, false, [⟨"xcmPallet", "Attempted"⟩], "0xabc"⟩).status =
      some ⟨.error, some "Transaction failed - check blockchain explorer for details", none⟩ ∧
    (watchCallback "1" ⟨true, false, [⟨"xcmPallet", "Attempted"⟩], "0xabc"⟩).unsubCalls = 1 :=
  c6_inblock_without_success "1" ⟨true, false, [⟨"xcmPallet", "Attempted"⟩], "0xabc"⟩
    (by decide) (by decide)

/-- C7 counterexample: for the raw Asset Hub balance 500000 minor units
(0.00005 DOT, decimals 10), the source's `toFixed(4)` display is the
half-up-rounded `"0.0001"`, not the truncated `"0.0000"` demanded by
the display rule — so not every displayed balance string is computed by
truncating exact integer division. -/
theorem c7_counterexample :
    assetHubFormatFree 500000 = "0.0001" ∧
    truncDisplay 500000 10 = "0.0000" ∧
    assetHubFormatFree 500000 ≠ truncDisplay 500000 10 := by
  decide

/-- C7 (amended): the history list's `formatAmount` does render every
balance by exact integer division truncated to exactly four fractional
digits (for the occurring decimal counts 10 and 18); the Asset Hub
balance card of the first variant instead formats through bignumber.js
`toFixed(4)`, which rounds half-up rather than truncating. -/
theorem c7_formatAmount_truncates (amount decimals : Nat)
    (h : decimals = 10 ∨ decimals = 18) :
    formatAmount amount decimals = truncDisplay amount decimals ∧
    (truncFrac amount decimals).length = 4 := by
  have h4 : 4 ≤ decimals := by rcases h with h | h <;> omega
  have hpos : 0 < 10 ^ decimals := Nat.pos_pow_of_pos _ (by omega)
  have hr : amount % 10 ^ decimals < 10 ^ decimals := Nat.mod_lt _ hpos
  have hq : (amount % 10 ^ decimals) / 10 ^ (decimals - 4) < 10 ^ 4 := by
    rw [Nat.div_lt_iff_lt_mul (Nat.pos_pow_of_pos _ (by omega))]
    calc amount % 10 ^ decimals < 10 ^ decimals := hr
    _ = 10 ^ 4 * 10 ^ (decimals - 4) := by rw [← pow_add]; congr 1; omega
  constructor
  · unfold formatAmount truncDisplay truncFrac
    rw [padZeros_take_four decimals (amount % 10 ^ decimals) h4 hr]
  · have hlen : (natDigits ((amount % 10 ^ decimals) / 10 ^ (decimals - 4))).length ≤ 4 :=
      natDigits_length_le 4 _ hq (by omega)
    unfold truncFrac padZeros
    simp only [List.length_append, List.length_replicate]
    omega

/-- Witness for C7 at amount 123456789 with 10 decimals. -/
theorem c7_formatAmount_truncates_witness :
    formatAmount 123456789 10 = truncDisplay 123456789 10 ∧
    (truncFrac 123456789 10).length = 4 :=
  c7_formatAmount_truncates 123456789 10 (Or.inl rfl)

/-- C8: a failure of the collection-keyed DOT foreign-asset balance
query on Unique Network degrades to the zero balance
`{balance: "0", raw: "0"}` instead of propagating the error, in both
the SDK variant and the on-chain query variant of
`getDotBalanceOnUnique`. -/
theorem c8_query_failure_degrades_to_zero :
    getDotBalanceOnUniqueSdk (.error ()) = ⟨"0", "0"⟩ ∧
    getDotBalanceOnUniqueChain (.error ()) = ⟨"0", "0"⟩ :=
  ⟨rfl, rfl⟩

/-- C9: for any destination para id outside the static lookup table
(0, 1000, 2037), the history view produces the generic canonical label
`"Parachain <id>"` instead of raising an error. -/
theorem c9_unknown_id_generic_label (id : Nat)
    (h0 : id ≠ 0) (h1 : id ≠ 1000) (h2 : id ≠ 2037) :
    getDestinationChain id = "Parachain " ++ natReprS id := by
  unfold getDestinationChain
  rw [if_neg h0, if_neg h1, if_neg h2]

/-- Witness for C9 at the unknown id 9999. -/
theorem c9_unknown_id_generic_label_witness :
    getDestinationChain 9999 = "Parachain 9999" := by
  rw [c9_unknown_id_generic_label 9999 (by decide) (by decide) (by decide)]
  decide

/-- C10: a non-empty amount string on which `parseFloat` yields `NaN`
(such as `"abc"`) passes both bounds comparisons (each is false on
`NaN`), passes the balance check (`lt` against `NaN` is false), and
execution proceeds to build and submit a payload whose `Fungible`
field is the non-numeric string `"NaN"`. -/
theorem c10_nan_passes_validation (pk : List Nat) (bal : BalanceView) :
    belowMinA .nonNumeric = false ∧
    aboveMax .nonNumeric = false ∧
    (executeTransferA ⟨.fromPolkadot, .nonNumeric, pk, some bal, none, true, true⟩).result
      = .ok (buildFromPolkadot pk none) ∧
    (buildFromPolkadot pk none).assets.map AssetItem.fungible = ["NaN"] ∧
    Step.signAndSend ∈
      (executeTransferA ⟨.fromPolkadot, .nonNumeric, pk, some bal, none, true, true⟩).trace := by
  refine ⟨rfl, rfl, ?_, rfl, ?_⟩ <;>
    simp [executeTransferA, belowMinA, aboveMax, minorOf, toBigDec, bdMulPow10, bdAdd, bdLt]
